import Mathlib

/-!
Shallow embedding of the connection admission / relay pipeline of the
`cloudflare-workers` VLESS proxy worker: the `/ws` WebSocket message handler
in `src/index.tsx`, the `expiryToISO` helper in `src/utils/time.ts`, and the
`flushUsage` closure (the usage meter).

Bytes are modelled as `List Nat` (each entry a `Uint8Array` element, < 256).
JS numbers that hold integers are modelled as `Int`/`Nat`; SQL `NULL`-able
columns as `Option`.  `Date.parse` / `Date.prototype.toISOString` are
parameters (`parse`, `render`) of the definitions that use them, since the
claims never depend on the concrete calendar arithmetic, only on
success/failure and ordering of timestamps.
-/

namespace Vless

/-- JS truthiness of a nullable string (`null` and `""` are falsy). -/
def strTruthy : Option String → Bool
  | none => false
  | some s => s ≠ ""

/-- JS truthiness of a nullable number (`null` and `0` are falsy). -/
def numTruthy : Option Int → Bool
  | none => false
  | some n => n ≠ 0

/-- JS `x || dflt` on a nullable string. -/
def jsOrStr (o : Option String) (dflt : String) : String :=
  match o with
  | none => dflt
  | some s => if s = "" then dflt else s

/-- One row of the `users` table (`uuid, traffic_limit, traffic_used,
expiration_date, expiration_time, ip_limit`), as selected by the `/ws`
handler.  Nullable columns are `Option`. -/
structure UserRow where
  uuid : String
  traffic_limit : Option Int
  traffic_used : Option Int
  expiration_date : Option String
  expiration_time : Option String
  ip_limit : Option Int
  deriving Repr, DecidableEq

/-- The persistent store: the `users` table and the `user_ips` table
(`(uuid, ip)` pairs; `last_seen` is irrelevant to the claims). -/
structure Store where
  users : List UserRow
  user_ips : List (String × String)
  deriving Repr, DecidableEq

/-- `SELECT ... FROM users WHERE uuid = ?` (first row). -/
def getUser (s : Store) (u : String) : Option UserRow :=
  s.users.find? (fun r => r.uuid == u)

/-- `SELECT COUNT(DISTINCT ip) FROM user_ips WHERE uuid = ?`. -/
def countDistinctIps (s : Store) (u : String) : Nat :=
  (((s.user_ips.filter (fun p => p.1 == u)).map Prod.snd).eraseDups).length

/-- `UPDATE users SET traffic_used = traffic_used + ? WHERE uuid = ?`.
SQL `NULL + d` is `NULL`, hence `Option.map`. -/
def incrementUsage (s : Store) (u : String) (delta : Nat) : Store :=
  { s with users := s.users.map (fun r =>
      if r.uuid == u then
        { r with traffic_used := r.traffic_used.map (fun x => x + (delta : Int)) }
      else r) }

/-- The persisted traffic counter of account `u` (`NULL`-able). -/
def getTrafficUsed (s : Store) (u : String) : Option Int :=
  (getUser s u).bind (fun r => r.traffic_used)

/-! ## `expiryToISO` (src/utils/time.ts) -/

/-- The ISO string built by `expiryToISO` before parsing:
`` `${dateStr}T${t}Z` `` where `t` appends `":00"` when the time has
exactly two `:`-separated fields. -/
def isoOf (dateStr timeStr : String) : String :=
  let t := if (timeStr.splitOn ":").length = 2 then timeStr ++ ":00" else timeStr
  dateStr ++ "T" ++ t ++ "Z"

/-- `expiryToISO(dateStr, timeStr)`: `null` for falsy inputs, `null` when the
combined string does not parse to a valid timestamp, otherwise the
re-rendered ISO form of the parsed timestamp. -/
def expiryToISO (parse : String → Option Int) (render : Int → String)
    (dateStr timeStr : Option String) : Option String :=
  if strTruthy dateStr && strTruthy timeStr then
    match parse (isoOf (dateStr.getD "") (timeStr.getD "")) with
    | none => none
    | some d => some (render d)
  else none

/-! ## Header parsing (the JS fallback parser in the `/ws` handler) -/

/-- The object produced by header parsing:
`{ uuid, command, address, address_type, port }`. -/
structure Parsed where
  uuid : String
  command : Nat
  address : String
  address_type : Nat
  port : Nat
  deriving Repr, DecidableEq

/-- One lowercase hex digit. -/
def hexDigit (n : Nat) : Char :=
  if n < 10 then Char.ofNat (48 + n) else Char.ofNat (87 + n)

/-- `b.toString(16).padStart(2, '0')` for a byte. -/
def byteToHex (b : Nat) : String :=
  String.mk [hexDigit (b / 16 % 16), hexDigit (b % 16)]

/-- Concatenated lowercase hex of a byte list. -/
def hexOfBytes (bs : List Nat) : String :=
  String.join (bs.map byteToHex)

/-- The `8-4-4-4-12` UUID formatting of 16 raw bytes (the `substring`
splits of the 32-char hex string at 8/12/16/20). -/
def formatUuid (bs : List Nat) : String :=
  hexOfBytes (bs.take 4) ++ "-" ++ hexOfBytes ((bs.drop 4).take 2) ++ "-" ++
  hexOfBytes ((bs.drop 6).take 2) ++ "-" ++ hexOfBytes ((bs.drop 8).take 2) ++ "-" ++
  hexOfBytes (bs.drop 10)

/-- The JS fallback header parse: uuid from bytes `1..17`,
`command := view.getUint8(18)` (a `RangeError` — modelled as `.error ()` —
when the chunk has fewer than 19 bytes), `address := ''`,
`address_type := 1`, `port := 443`. -/
def fallbackParse (chunk : List Nat) : Except Unit Parsed :=
  let uuidFmt := formatUuid ((chunk.drop 1).take 16)
  match chunk.get? 18 with
  | none => .error ()
  | some cmd => .ok { uuid := uuidFmt, command := cmd, address := "",
                      address_type := 1, port := 443 }

/-- Byte of a frame at offset `i` (0 when out of range; used only to state
claims about the wire layout, not inside the embedded code). -/
def byteAt (c : List Nat) (i : Nat) : Nat := c.getD i 0

/-- Big-endian u16 of a frame at offset `i` (claim-side helper). -/
def be16At (c : List Nat) (i : Nat) : Nat := 256 * byteAt c i + byteAt c (i + 1)

/-- Addon length `L` at offset 17 (claim-side helper). -/
def addonLen (c : List Nat) : Nat := byteAt c 17

/-! ## The `/ws` message handler (src/index.tsx, registerRoutes) -/

/-- Ambient inputs of one `/ws` session: `Date` parsing/rendering, the
current time, the store, the two client-address request headers, the WASM
parser (`none` models both "threw" and "returned null", either of which
sends the code to the JS fallback), and `server.readyState`. -/
structure WsEnv where
  parse : String → Option Int
  render : Int → String
  now : Int
  store : Store
  cfIp : Option String
  xff : Option String
  wasmParse : List Nat → Option Parsed
  readyState : Nat

/-- Connection-local mutable state of the handler:
`uuidStr` (empty until the first header is parsed) and `sessionUsage`. -/
structure SessionState where
  uuidStr : String
  sessionUsage : Nat
  deriving Repr, DecidableEq

/-- Observable effects the message handler can perform.  `connect` (opening
an outbound upstream socket) exists in the action vocabulary so that its
absence from the code's behaviour is expressible; the handler never emits
it. -/
inductive Action where
  | close (code : Nat) (reason : String)
  | upsertIp (uuid : String) (ip : String)
  | sendAck
  | connect (addr : String) (port : Nat)
  deriving Repr, DecidableEq

/-- `expIso && new Date(expIso) <= new Date()`: truthy ISO string whose
re-parse is ≤ now (comparisons against `NaN` are false). -/
def expiryRejects (parse : String → Option Int) (render : Int → String)
    (now : Int) (row : UserRow) : Bool :=
  match expiryToISO parse render row.expiration_date row.expiration_time with
  | none => false
  | some s =>
    if s = "" then false
    else match parse s with
         | none => false
         | some t => decide (t ≤ now)

/-- `userRow.traffic_limit && userRow.traffic_limit > 0 &&
(userRow.traffic_used || 0) >= userRow.traffic_limit`. -/
def trafficLimitRejects (row : UserRow) : Bool :=
  numTruthy row.traffic_limit && decide (row.traffic_limit.getD 0 > 0) &&
  decide (row.traffic_used.getD 0 ≥ row.traffic_limit.getD 0)

/-- `userRow.ip_limit && userRow.ip_limit > -1` — the guard that decides
whether the IP-count check runs at all. -/
def ipLimitGuard (row : UserRow) : Bool :=
  numTruthy row.ip_limit && decide (row.ip_limit.getD 0 > -1)

/-- `ipCount >= userRow.ip_limit` under the guard. -/
def ipLimitRejects (row : UserRow) (ipCount : Nat) : Bool :=
  ipLimitGuard row && decide ((ipCount : Int) ≥ row.ip_limit.getD 0)

/-- `parsed`: the WASM parser when it yields an object, else the JS
fallback; a fallback throw is the `.error` of the whole parse step. -/
def parseFirst (env : WsEnv) (chunk : List Nat) : Except Unit Parsed :=
  match env.wasmParse chunk with
  | some p => .ok p
  | none => fallbackParse chunk

/-- `if (server.readyState === 1) server.send('ACK')`. -/
def ackActions (env : WsEnv) : List Action :=
  if env.readyState = 1 then [.sendAck] else []

/-- The account validation sequence run on the first frame once
`uuidStr = parsed.uuid` is assigned: account lookup, then — in this order,
returning on the first failure — expiry, traffic-limit and IP-limit
checks, finally the fire-and-forget `user_ips` upsert and the ACK. -/
def authorizeActions (env : WsEnv) (u : String) : List Action :=
  match getUser env.store u with
  | none => [.close 1011 "Authentication failed"]
  | some row =>
    if expiryRejects env.parse env.render env.now row then
      [.close 1008 "Expired"]
    else if trafficLimitRejects row then
      [.close 1008 "Traffic limit exceeded"]
    else if ipLimitRejects row (countDistinctIps env.store u) then
      [.close 1008 "IP limit exceeded"]
    else
      .upsertIp u (jsOrStr env.cfIp "unknown") :: ackActions env

/-- One run of the `message` listener on a binary frame `chunk`:
`sessionUsage += chunk.byteLength`; on the first frame parse the header
(`uuidStr` stays empty when the fallback throws and the session closes with
`Parse error`), otherwise record `uuidStr := parsed.uuid` and run the
validation sequence; every later frame skips straight to the ACK.  Returns
the updated session state and the effects performed. -/
def handleMessage (env : WsEnv) (st : SessionState) (chunk : List Nat) :
    SessionState × List Action :=
  if st.uuidStr = "" then
    match parseFirst env chunk with
    | .error _ => ({ uuidStr := st.uuidStr,
                     sessionUsage := st.sessionUsage + chunk.length },
                   [.close 1011 "Parse error"])
    | .ok parsed => ({ uuidStr := parsed.uuid,
                       sessionUsage := st.sessionUsage + chunk.length },
                     authorizeActions env parsed.uuid)
  else
    ({ st with sessionUsage := st.sessionUsage + chunk.length }, ackActions env)

/-! ## UsageMeter: `sessionUsage` accumulation and `flushUsage` -/

/-- `sessionUsage += bytes` (the `record` operation). -/
def recordUsage (st : SessionState) (bytes : Nat) : SessionState :=
  { st with sessionUsage := st.sessionUsage + bytes }

/-- `flushUsage`: no-op when `uuidStr` is falsy or `sessionUsage <= 0`;
otherwise add the accumulated bytes to the persisted counter and reset the
accumulator to zero. -/
def flushUsage (s : Store) (st : SessionState) : Store × SessionState :=
  if st.uuidStr = "" ∨ st.sessionUsage = 0 then (s, st)
  else (incrementUsage s st.uuidStr st.sessionUsage, { st with sessionUsage := 0 })

/-- `true` exactly on the `connect` action (claim-side helper, to state that
the handler never opens an upstream socket). -/
def isConnect : Action → Bool
  | .connect _ _ => true
  | _ => false

/-! ## Concrete fixtures used by witnesses and counterexamples -/

/-- The all-zero 16-byte account id in canonical textual form. -/
def zeroUuid : String := "00000000-0000-0000-0000-000000000000"

/-- A 24-byte all-zero first frame (its bytes 1..17 are the all-zero id). -/
def frame24 : List Nat := List.replicate 24 0

/-- An account row with no limits and no expiry. -/
def noLimitsRow : UserRow :=
  { uuid := zeroUuid, traffic_limit := none, traffic_used := some 5,
    expiration_date := none, expiration_time := none, ip_limit := none }

/-- An environment around a given store: `Date.parse` always fails, source
address `1.2.3.4`, no WASM parser, socket open. -/
def mkEnv (s : Store) : WsEnv :=
  { parse := fun _ => none, render := fun _ => "", now := 0, store := s,
    cfIp := some "1.2.3.4", xff := none,
    wasmParse := fun _ => none, readyState := 1 }

/-! ## Helper lemmas -/

theorem foldl_recordUsage (rs : List Nat) (u : String) (a : Nat) :
    rs.foldl recordUsage ⟨u, a⟩ = ⟨u, a + rs.sum⟩ := by
  induction rs generalizing a with
  | nil => simp
  | cons b bs ih => simp [recordUsage, ih, Nat.add_assoc]

theorem find?_bind_used_update (l : List UserRow) (u : String) (d : Nat) :
    ((l.map (fun r =>
        if r.uuid == u then
          { r with traffic_used := r.traffic_used.map (fun x => x + (d : Int)) }
        else r)).find? (fun r => r.uuid == u)).bind UserRow.traffic_used =
    ((l.find? (fun r => r.uuid == u)).bind UserRow.traffic_used).map
      (fun x => x + (d : Int)) := by
  induction l with
  | nil => rfl
  | cons r rs ih =>
    by_cases h : r.uuid = u
    · have hb : (r.uuid == u) = true := by simp [h]
      simp only [List.map_cons, hb, if_true]
      rw [List.find?_cons_of_pos _ (by simpa using hb),
          List.find?_cons_of_pos _ (by simpa using hb)]
      simp
    · have hb : (r.uuid == u) = false := by simp [h]
      simp only [List.map_cons, hb, Bool.false_eq_true, if_false]
      rw [List.find?_cons_of_neg _ (by simp [hb]),
          List.find?_cons_of_neg _ (by simp [hb])]
      exact ih

theorem getTrafficUsed_incrementUsage (s : Store) (u : String) (d : Nat) :
    getTrafficUsed (incrementUsage s u d) u =
      (getTrafficUsed s u).map (fun x => x + (d : Int)) := by
  unfold getTrafficUsed getUser incrementUsage
  exact find?_bind_used_update s.users u d

theorem handleMessage_first_ok (env : WsEnv) (st : SessionState) (chunk : List Nat)
    (p : Parsed) (h0 : st.uuidStr = "") (hp : parseFirst env chunk = .ok p) :
    handleMessage env st chunk =
      ({ uuidStr := p.uuid, sessionUsage := st.sessionUsage + chunk.length },
       authorizeActions env p.uuid) := by
  unfold handleMessage
  rw [if_pos h0, hp]

theorem handleMessage_first_error (env : WsEnv) (st : SessionState) (chunk : List Nat)
    (h0 : st.uuidStr = "") (hp : parseFirst env chunk = .error ()) :
    handleMessage env st chunk =
      ({ uuidStr := st.uuidStr, sessionUsage := st.sessionUsage + chunk.length },
       [.close 1011 "Parse error"]) := by
  unfold handleMessage
  rw [if_pos h0, hp]

theorem handleMessage_later (env : WsEnv) (st : SessionState) (chunk : List Nat)
    (h0 : ¬ st.uuidStr = "") :
    handleMessage env st chunk =
      ({ st with sessionUsage := st.sessionUsage + chunk.length }, ackActions env) := by
  unfold handleMessage
  rw [if_neg h0]

theorem authorizeActions_unknown (env : WsEnv) (u : String)
    (hg : getUser env.store u = none) :
    authorizeActions env u = [.close 1011 "Authentication failed"] := by
  unfold authorizeActions
  simp only [hg]

theorem authorizeActions_expired (env : WsEnv) (u : String) (row : UserRow)
    (hg : getUser env.store u = some row)
    (hexp : expiryRejects env.parse env.render env.now row = true) :
    authorizeActions env u = [.close 1008 "Expired"] := by
  unfold authorizeActions
  simp only [hg, hexp, if_true]

theorem authorizeActions_traffic (env : WsEnv) (u : String) (row : UserRow)
    (hg : getUser env.store u = some row)
    (hexp : expiryRejects env.parse env.render env.now row = false)
    (htr : trafficLimitRejects row = true) :
    authorizeActions env u = [.close 1008 "Traffic limit exceeded"] := by
  unfold authorizeActions
  simp only [hg, hexp, htr, Bool.false_eq_true, if_false, if_true]

theorem authorizeActions_ipLimit (env : WsEnv) (u : String) (row : UserRow)
    (hg : getUser env.store u = some row)
    (hexp : expiryRejects env.parse env.render env.now row = false)
    (htr : trafficLimitRejects row = false)
    (hip : ipLimitRejects row (countDistinctIps env.store u) = true) :
    authorizeActions env u = [.close 1008 "IP limit exceeded"] := by
  unfold authorizeActions
  simp only [hg, hexp, htr, hip, Bool.false_eq_true, if_false, if_true]

theorem authorizeActions_pass (env : WsEnv) (u : String) (row : UserRow)
    (hg : getUser env.store u = some row)
    (hexp : expiryRejects env.parse env.render env.now row = false)
    (htr : trafficLimitRejects row = false)
    (hip : ipLimitRejects row (countDistinctIps env.store u) = false) :
    authorizeActions env u = .upsertIp u (jsOrStr env.cfIp "unknown") :: ackActions env := by
  unfold authorizeActions
  simp only [hg, hexp, htr, hip, Bool.false_eq_true, if_false]

theorem ackActions_no_connect (env : WsEnv) : (ackActions env).any isConnect = false := by
  unfold ackActions
  split <;> rfl

theorem authorizeActions_no_connect (env : WsEnv) (u : String) :
    (authorizeActions env u).any isConnect = false := by
  unfold authorizeActions
  split
  · rfl
  · split
    · rfl
    · split
      · rfl
      · split
        · rfl
        · simp [isConnect, ackActions_no_connect env]

/-! ## Claims -/

/-- C3 (code_bug evidence): an 18-byte first frame is shorter than the
minimum header; instead of remaining in `AwaitingHeader` awaiting more
bytes (which the source's own comments announce), the fallback parse throws
at `view.getUint8(18)` and the session closes with `1011 "Parse error"`. -/
theorem c3_truncated_frame_closes_parse_error :
    fallbackParse (List.replicate 18 0) = .error () ∧
    handleMessage (mkEnv ⟨[], []⟩) ⟨"", 0⟩ (List.replicate 18 0) =
      (⟨"", 18⟩, [.close 1011 "Parse error"]) := by
  exact ⟨rfl, rfl⟩

/-- C4 (code_bug evidence): the relay step is an acknowledgement stub.  On a
fully valid, authorized first frame the handler merely upserts the client
IP and sends `ACK`; and on no input whatsoever does the handler emit a
`connect` action, so no outbound upstream connection to the decoded
`(targetAddress, targetPort)` is ever attempted and no bytes are relayed. -/
theorem c4_relay_is_ack_stub_no_upstream :
    handleMessage (mkEnv ⟨[noLimitsRow], []⟩) ⟨"", 0⟩ frame24 =
      (⟨zeroUuid, 24⟩, [.upsertIp zeroUuid "1.2.3.4", .sendAck]) ∧
    ∀ env st chunk, ((handleMessage env st chunk).2.any isConnect) = false := by
  refine ⟨rfl, ?_⟩
  intro env st chunk
  unfold handleMessage
  split
  · split
    · rfl
    · exact authorizeActions_no_connect env _
  · exact ackActions_no_connect env

/-- A first frame carrying addon length `L = 1` (offset 17), addon byte 99,
the real command byte 1 at offset `18+L = 19`, and the real big-endian port
80 at offsets `19+L = 20..21`. -/
def c5Frame : List Nat := [0] ++ List.replicate 16 0 ++ [1, 99, 1, 0, 80, 3, 7]

/-- C5 counterexample: on `c5Frame` the fallback parser does NOT read the
command byte from offset `18+L` nor the port from `19+L`: it returns
command 99 (the addon byte at absolute offset 18) and the constant port
443, while the wire layout of the claim has command 1 and port 80 there. -/
theorem c5_layout_claim_false_cx :
    ¬ ((fallbackParse c5Frame).toOption.map Parsed.command =
         some (byteAt c5Frame (18 + addonLen c5Frame)) ∧
       (fallbackParse c5Frame).toOption.map Parsed.port =
         some (be16At c5Frame (19 + addonLen c5Frame))) := by
  decide

/-- C5 amended: whenever the frame has at least 19 bytes (so that
`view.getUint8(18)` succeeds), the fallback parser returns the uuid
formatted from bytes 1..17, the command byte read from the FIXED offset 18
(the addon length is ignored), an empty address, address type 1 and the
CONSTANT port 443 — the decoded port never depends on the input. -/
theorem c5_fallback_fixed_offsets_amended (chunk : List Nat) (cmd : Nat)
    (h : chunk.get? 18 = some cmd) :
    fallbackParse chunk =
      .ok { uuid := formatUuid ((chunk.drop 1).take 16), command := cmd,
            address := "", address_type := 1, port := 443 } := by
  unfold fallbackParse
  rw [h]

/-- C5 amended, witness at `c5Frame`. -/
theorem c5_fallback_fixed_offsets_witness :
    c5Frame.get? 18 = some 99 ∧
    fallbackParse c5Frame =
      .ok { uuid := formatUuid ((c5Frame.drop 1).take 16), command := 99,
            address := "", address_type := 1, port := 443 } :=
  ⟨by decide, c5_fallback_fixed_offsets_amended c5Frame 99 (by decide)⟩

/-- Account row with IP limit 2, used by the C1 counterexample. -/
def c1Row : UserRow := { noLimitsRow with ip_limit := some 2 }

/-- Environment for the C1 counterexample: two distinct IPs already on
record for the account, and the current source address `10.0.0.1` is one
of them. -/
def c1Env : WsEnv :=
  { mkEnv ⟨[c1Row], [(zeroUuid, "10.0.0.1"), (zeroUuid, "10.0.0.2")]⟩ with
    cfIp := some "10.0.0.1" }

/-- C1 counterexample: the source address `10.0.0.1` IS among the recorded
addresses for the account, the distinct count equals the limit 2, the
account is neither expired nor over traffic — and the connection is
nevertheless rejected with `IP limit exceeded`: re-auth from a recorded
address is not idempotent. -/
theorem c1_recorded_ip_rejected_cx :
    (zeroUuid, "10.0.0.1") ∈ c1Env.store.user_ips ∧
    jsOrStr c1Env.cfIp "unknown" = "10.0.0.1" ∧
    c1Row.ip_limit = some 2 ∧
    countDistinctIps c1Env.store zeroUuid = 2 ∧
    handleMessage c1Env ⟨"", 0⟩ frame24 =
      (⟨zeroUuid, 24⟩, [.close 1008 "IP limit exceeded"]) := by
  exact ⟨by decide, rfl, rfl, by decide, rfl⟩

/-- C1 amended: the handler never consults whether the current source
address is among the recorded ones (`clientIp` is unused by the check and
`env.cfIp` is arbitrary here).  Whenever the account passes lookup, expiry
and traffic checks but `COUNT(DISTINCT ip) >= ip_limit` with an enforced
limit, the session closes with `IP limit exceeded` — a recorded address is
rejected exactly like a new one. -/
theorem c1_ip_count_rejects_even_recorded_amended (env : WsEnv) (st : SessionState)
    (chunk : List Nat) (p : Parsed) (row : UserRow)
    (h0 : st.uuidStr = "") (hp : parseFirst env chunk = .ok p)
    (hg : getUser env.store p.uuid = some row)
    (hexp : expiryRejects env.parse env.render env.now row = false)
    (htr : trafficLimitRejects row = false)
    (hip : ipLimitRejects row (countDistinctIps env.store p.uuid) = true) :
    handleMessage env st chunk =
      (⟨p.uuid, st.sessionUsage + chunk.length⟩, [.close 1008 "IP limit exceeded"]) := by
  rw [handleMessage_first_ok env st chunk p h0 hp,
      authorizeActions_ipLimit env p.uuid row hg hexp htr hip]

/-- C1 amended, witness: applied in the `c1Env` scenario where the source
address is recorded. -/
theorem c1_ip_count_rejects_witness :
    handleMessage c1Env ⟨"", 0⟩ frame24 =
      (⟨zeroUuid, 0 + frame24.length⟩, [.close 1008 "IP limit exceeded"]) :=
  c1_ip_count_rejects_even_recorded_amended c1Env ⟨"", 0⟩ frame24
    ⟨zeroUuid, 0, "", 1, 443⟩ c1Row rfl rfl rfl rfl rfl (by decide)

/-- Account row expiring at `2020-01-01 00:00`, used by C2. -/
def c2Row : UserRow := { noLimitsRow with expiration_date := some "2020-01-01",
                                          expiration_time := some "00:00" }

/-- Environment for C2: the account is expired (`parse` always yields
timestamp 0, which is ≤ `now = 100`). -/
def c2Env : WsEnv := { mkEnv ⟨[c2Row], []⟩ with
                       parse := fun _ => some 0,
                       render := fun _ => "2020-01-01T00:00:00.000Z",
                       now := 100 }

/-- C2 counterexample: the expired session does close with `Expired` and no
upstream is attempted, BUT the persisted traffic counter is NOT unchanged:
`sessionUsage` was incremented before the expiry check and `uuidStr` was
assigned before it, so the close-time flush adds the 24 bytes of the
rejected frame (5 → 29). -/
theorem c2_expired_usage_flushed_cx :
    (handleMessage c2Env ⟨"", 0⟩ frame24).2 = [.close 1008 "Expired"] ∧
    getTrafficUsed c2Env.store zeroUuid = some 5 ∧
    getTrafficUsed (flushUsage c2Env.store
        (handleMessage c2Env ⟨"", 0⟩ frame24).1).1 zeroUuid = some 29 := by
  exact ⟨rfl, rfl, by decide⟩

/-- C2 amended: an expired account closes with reason `Expired`, no further
action is emitted (in particular no upstream `connect`), but usage IS
recorded: the flush performed when the connection closes adds the rejected
frame size to the account persisted traffic counter. -/
theorem c2_expired_closes_but_flushes_usage_amended (env : WsEnv)
    (st : SessionState) (chunk : List Nat) (p : Parsed) (row : UserRow) (u0 : Int)
    (h0 : st.uuidStr = "") (hu : st.sessionUsage = 0)
    (hp : parseFirst env chunk = .ok p)
    (hg : getUser env.store p.uuid = some row)
    (hexp : expiryRejects env.parse env.render env.now row = true)
    (hne : p.uuid ≠ "") (hc : chunk ≠ [])
    (hu0 : getTrafficUsed env.store p.uuid = some u0) :
    (handleMessage env st chunk).2 = [.close 1008 "Expired"] ∧
    ((handleMessage env st chunk).2.any isConnect) = false ∧
    getTrafficUsed (flushUsage env.store (handleMessage env st chunk).1).1 p.uuid
      = some (u0 + (chunk.length : Int)) := by
  rw [handleMessage_first_ok env st chunk p h0 hp,
      authorizeActions_expired env p.uuid row hg hexp]
  refine ⟨rfl, rfl, ?_⟩
  have hlen : st.sessionUsage + chunk.length ≠ 0 := by
    rw [hu]
    simpa using hc
  rw [show flushUsage env.store ⟨p.uuid, st.sessionUsage + chunk.length⟩ =
        (incrementUsage env.store p.uuid (st.sessionUsage + chunk.length),
         ⟨p.uuid, 0⟩) from by
      unfold flushUsage
      rw [if_neg (by simp [hne, hlen])]]
  rw [getTrafficUsed_incrementUsage, hu0, hu]
  simp

/-- C2 amended, witness in the `c2Env` scenario. -/
theorem c2_expired_flush_witness :
    (handleMessage c2Env ⟨"", 0⟩ frame24).2 = [.close 1008 "Expired"] ∧
    getTrafficUsed (flushUsage c2Env.store
        (handleMessage c2Env ⟨"", 0⟩ frame24).1).1 zeroUuid
      = some (5 + (frame24.length : Int)) := by
  have h := c2_expired_closes_but_flushes_usage_amended c2Env ⟨"", 0⟩ frame24
    ⟨zeroUuid, 0, "", 1, 443⟩ c2Row 5 rfl rfl rfl rfl (by decide) (by decide)
    (by decide) rfl
  exact ⟨h.1, h.2.2⟩

/-- Account row with `traffic_limit = 0` and `traffic_used = 0`, used by the
C6 counterexample. -/
def c6Row : UserRow := { noLimitsRow with traffic_limit := some 0,
                                          traffic_used := some 0 }

/-- Environment for the C6 counterexample. -/
def c6Env : WsEnv := mkEnv ⟨[c6Row], []⟩

/-- C6 counterexample: `traffic_limit` is set to 0 and
`traffic_used >= traffic_limit` (0 ≥ 0), yet the session is NOT closed with
`Traffic limit exceeded` — the JS guard `traffic_limit && traffic_limit > 0`
treats limit 0 as no limit, and the connection proceeds to upsert + ACK. -/
theorem c6_zero_traffic_limit_not_enforced_cx :
    c6Row.traffic_limit = some 0 ∧ c6Row.traffic_used = some 0 ∧
    c6Row.traffic_used.getD 0 ≥ c6Row.traffic_limit.getD 0 ∧
    trafficLimitRejects c6Row = false ∧
    handleMessage c6Env ⟨"", 0⟩ frame24 =
      (⟨zeroUuid, 24⟩, [.upsertIp zeroUuid "1.2.3.4", .sendAck]) := by
  exact ⟨rfl, rfl, by decide, rfl, rfl⟩

/-- C6 amended: the traffic check fires only for a STRICTLY POSITIVE limit:
if `traffic_limit = l` with `l > 0` and `(traffic_used || 0) >= l`, the
session closes with `Traffic limit exceeded`, regardless of the source
address (`env`, and with it the client IP, is arbitrary); limit 0 (or null)
is treated as unlimited. -/
theorem c6_positive_traffic_limit_enforced_amended (env : WsEnv) (u : String)
    (row : UserRow) (l : Int)
    (hg : getUser env.store u = some row)
    (hexp : expiryRejects env.parse env.render env.now row = false)
    (hl : row.traffic_limit = some l) (hpos : 0 < l)
    (hused : row.traffic_used.getD 0 ≥ l) :
    authorizeActions env u = [.close 1008 "Traffic limit exceeded"] := by
  have htr : trafficLimitRejects row = true := by
    unfold trafficLimitRejects numTruthy
    rw [hl]
    simp only [Option.getD_some]
    simp [ne_of_gt hpos, hpos, hused]
  exact authorizeActions_traffic env u row hg hexp htr

/-- Row with `traffic_limit = 10`, `traffic_used = 10` for the C6 witness. -/
def c6wRow : UserRow := { noLimitsRow with traffic_limit := some 10,
                                           traffic_used := some 10 }

/-- Environment for the C6 witness. -/
def c6wEnv : WsEnv := mkEnv ⟨[c6wRow], []⟩

/-- C6 amended, witness: `used == limit == 10` is rejected. -/
theorem c6_positive_traffic_limit_witness :
    authorizeActions c6wEnv zeroUuid = [.close 1008 "Traffic limit exceeded"] :=
  c6_positive_traffic_limit_enforced_amended c6wEnv zeroUuid c6wRow 10
    rfl rfl rfl (by decide) (by decide)

/-- Account row with `ip_limit = 0`, used by the C7 counterexample. -/
def c7Row : UserRow := { noLimitsRow with ip_limit := some 0 }

/-- Environment for the C7 counterexample: no IPs recorded, fresh source. -/
def c7Env : WsEnv := mkEnv ⟨[c7Row], []⟩

/-- C7 counterexample: with `concurrentIpLimit = 0` and an unseen source
address, the claim demands `IpLimitExceeded`; instead the JS truthiness
guard `ip_limit && ip_limit > -1` skips the whole check for limit 0 and the
connection is accepted (upsert + ACK). -/
theorem c7_zero_ip_limit_accepted_cx :
    c7Row.ip_limit = some 0 ∧
    countDistinctIps c7Env.store zeroUuid = 0 ∧
    handleMessage c7Env ⟨"", 0⟩ frame24 =
      (⟨zeroUuid, 24⟩, [.upsertIp zeroUuid "1.2.3.4", .sendAck]) := by
  exact ⟨rfl, rfl, rfl⟩

/-- C7 amended: `ip_limit = 0` is treated as unlimited: for every
environment and every account that passes lookup, expiry and traffic
checks, a zero IP limit never rejects — the handler proceeds to the
`user_ips` upsert and the ACK. -/
theorem c7_zero_ip_limit_unlimited_amended (env : WsEnv) (u : String) (row : UserRow)
    (hg : getUser env.store u = some row)
    (hexp : expiryRejects env.parse env.render env.now row = false)
    (htr : trafficLimitRejects row = false)
    (hip0 : row.ip_limit = some 0) :
    authorizeActions env u = .upsertIp u (jsOrStr env.cfIp "unknown") :: ackActions env := by
  have hip : ipLimitRejects row (countDistinctIps env.store u) = false := by
    unfold ipLimitRejects ipLimitGuard numTruthy
    rw [hip0]
    simp
  exact authorizeActions_pass env u row hg hexp htr hip

/-- C7 amended, witness in the `c7Env` scenario. -/
theorem c7_zero_ip_limit_witness :
    authorizeActions c7Env zeroUuid =
      .upsertIp zeroUuid (jsOrStr c7Env.cfIp "unknown") :: ackActions c7Env :=
  c7_zero_ip_limit_unlimited_amended c7Env zeroUuid c7Row rfl rfl rfl rfl

/-- In any one outcome of the validation sequence, a `close` and the
`user_ips` upsert are mutually exclusive: every failing check returns its
close alone, and the upsert appears only on the all-checks-pass path. -/
theorem close_excludes_upsert (env : WsEnv) (u : String) (c : Nat) (r u2 ip : String)
    (hc : Action.close c r ∈ authorizeActions env u) :
    Action.upsertIp u2 ip ∉ authorizeActions env u := by
  cases hgu : getUser env.store u with
  | none =>
    rw [authorizeActions_unknown env u hgu]
    simp
  | some row =>
    by_cases hexp : expiryRejects env.parse env.render env.now row = true
    · rw [authorizeActions_expired env u row hgu hexp]
      simp
    · have hexp2 : expiryRejects env.parse env.render env.now row = false :=
        Bool.eq_false_iff.mpr hexp
      by_cases htr : trafficLimitRejects row = true
      · rw [authorizeActions_traffic env u row hgu hexp2 htr]
        simp
      · have htr2 : trafficLimitRejects row = false := Bool.eq_false_iff.mpr htr
        by_cases hip : ipLimitRejects row (countDistinctIps env.store u) = true
        · rw [authorizeActions_ipLimit env u row hgu hexp2 htr2 hip]
          simp
        · have hip2 : ipLimitRejects row (countDistinctIps env.store u) = false :=
            Bool.eq_false_iff.mpr hip
          rw [authorizeActions_pass env u row hgu hexp2 htr2 hip2] at hc
          exfalso
          rcases List.mem_cons.mp hc with h | h
          · simp at h
          · unfold ackActions at h
            split at h <;> simp at h

/-- C8: (a) an account that is both expired and over its traffic limit is
rejected with `Expired` — the expiry check runs first and short-circuits;
(b) a missing account id yields `Authentication failed` (the
`UnknownAccount` surface) regardless of any other condition; (c) whenever
any check fails (a close is emitted), no `user_ips` upsert (the only store
write of steps 1-5) is performed. -/
theorem c8_auth_order_and_no_write_on_failure :
    (∀ env st chunk p row, st.uuidStr = "" → parseFirst env chunk = .ok p →
      getUser env.store p.uuid = some row →
      expiryRejects env.parse env.render env.now row = true →
      trafficLimitRejects row = true →
      (handleMessage env st chunk).2 = [.close 1008 "Expired"]) ∧
    (∀ env st chunk p, st.uuidStr = "" → parseFirst env chunk = .ok p →
      getUser env.store p.uuid = none →
      (handleMessage env st chunk).2 = [.close 1011 "Authentication failed"]) ∧
    (∀ env st chunk c r u ip, Action.close c r ∈ (handleMessage env st chunk).2 →
      Action.upsertIp u ip ∉ (handleMessage env st chunk).2) := by
  refine ⟨?_, ?_, ?_⟩
  · intro env st chunk p row h0 hp hg hexp _
    rw [handleMessage_first_ok env st chunk p h0 hp,
        authorizeActions_expired env p.uuid row hg hexp]
  · intro env st chunk p h0 hp hg
    rw [handleMessage_first_ok env st chunk p h0 hp,
        authorizeActions_unknown env p.uuid hg]
  · intro env st chunk c r u ip hc
    by_cases h0 : st.uuidStr = ""
    · cases hp : parseFirst env chunk with
      | error e =>
        cases e
        rw [handleMessage_first_error env st chunk h0 hp] at hc ⊢
        simp
      | ok p =>
        rw [handleMessage_first_ok env st chunk p h0 hp] at hc ⊢
        exact close_excludes_upsert env p.uuid c r u ip hc
    · rw [handleMessage_later env st chunk h0] at hc ⊢
      exfalso
      unfold ackActions at hc
      split at hc <;> simp at hc

/-- Row both expired and over its traffic limit, for the C8 witness. -/
def c8Row : UserRow := { noLimitsRow with expiration_date := some "2020-01-01",
                                          expiration_time := some "00:00",
                                          traffic_limit := some 10,
                                          traffic_used := some 10 }

/-- Environment for the C8 witness (account expired at timestamp 0,
`now = 100`). -/
def c8Env : WsEnv := { mkEnv ⟨[c8Row], []⟩ with
                       parse := fun _ => some 0,
                       render := fun _ => "2020-01-01T00:00:00.000Z",
                       now := 100 }

/-- Environment with an empty `users` table, for the C8 witness. -/
def c8EnvU : WsEnv := mkEnv ⟨[], []⟩

/-- C8 witness: expired-and-over-traffic account closes `Expired`; unknown
account closes `Authentication failed` and performs no upsert. -/
theorem c8_auth_order_witness :
    (handleMessage c8Env ⟨"", 0⟩ frame24).2 = [.close 1008 "Expired"] ∧
    (handleMessage c8EnvU ⟨"", 0⟩ frame24).2 = [.close 1011 "Authentication failed"] ∧
    Action.upsertIp zeroUuid "1.2.3.4" ∉ (handleMessage c8EnvU ⟨"", 0⟩ frame24).2 :=
  ⟨c8_auth_order_and_no_write_on_failure.1 c8Env ⟨"", 0⟩ frame24
     ⟨zeroUuid, 0, "", 1, 443⟩ c8Row rfl rfl rfl (by decide) (by decide),
   c8_auth_order_and_no_write_on_failure.2.1 c8EnvU ⟨"", 0⟩ frame24
     ⟨zeroUuid, 0, "", 1, 443⟩ rfl rfl rfl,
   c8_auth_order_and_no_write_on_failure.2.2 c8EnvU ⟨"", 0⟩ frame24
     1011 "Authentication failed" zeroUuid "1.2.3.4" (by decide)⟩

/-- C9: for every sequence `rs` of recorded byte counts starting from a
fresh accumulator, one flush adds exactly their sum to the persisted
counter, resets the accumulator to zero, and a second flush with no
intervening record changes nothing. -/
theorem c9_flush_adds_once_and_resets (s : Store) (u : String) (u0 : Int) (rs : List Nat)
    (hne : u ≠ "") (h0 : getTrafficUsed s u = some u0) :
    getTrafficUsed (flushUsage s (rs.foldl recordUsage ⟨u, 0⟩)).1 u
        = some (u0 + (rs.sum : Int)) ∧
    (flushUsage s (rs.foldl recordUsage ⟨u, 0⟩)).2.sessionUsage = 0 ∧
    flushUsage (flushUsage s (rs.foldl recordUsage ⟨u, 0⟩)).1
               (flushUsage s (rs.foldl recordUsage ⟨u, 0⟩)).2
      = flushUsage s (rs.foldl recordUsage ⟨u, 0⟩) := by
  rw [foldl_recordUsage]
  simp only [Nat.zero_add]
  by_cases hs : rs.sum = 0
  · rw [hs]
    have hf : flushUsage s ⟨u, 0⟩ = (s, ⟨u, 0⟩) := by
      unfold flushUsage
      rw [if_pos (Or.inr rfl)]
    rw [hf]
    exact ⟨by simp [h0], rfl, hf⟩
  · have hf : flushUsage s ⟨u, rs.sum⟩ =
        (incrementUsage s u rs.sum, ⟨u, 0⟩) := by
      unfold flushUsage
      rw [if_neg (by simp [hne, hs])]
    have hf2 : flushUsage (incrementUsage s u rs.sum) ⟨u, 0⟩ =
        (incrementUsage s u rs.sum, ⟨u, 0⟩) := by
      unfold flushUsage
      rw [if_pos (Or.inr rfl)]
    rw [hf]
    refine ⟨?_, rfl, hf2⟩
    rw [getTrafficUsed_incrementUsage, h0]
    rfl

/-- Store holding account `alice` with 5 bytes already persisted, for the
C9 witness. -/
def c9Store : Store :=
  ⟨[{ uuid := "alice", traffic_limit := none, traffic_used := some 5,
      expiration_date := none, expiration_time := none, ip_limit := none }], []⟩

/-- C9 witness: `record(100)`, `record(50)`, one flush: 150 added (5 → 155)
and the accumulator reset. -/
theorem c9_flush_witness :
    getTrafficUsed (flushUsage c9Store
        (([100, 50] : List Nat).foldl recordUsage ⟨"alice", 0⟩)).1 "alice"
      = some (5 + ((([100, 50] : List Nat).sum : Nat) : Int)) ∧
    (flushUsage c9Store (([100, 50] : List Nat).foldl recordUsage ⟨"alice", 0⟩)).2.sessionUsage = 0 :=
  ⟨(c9_flush_adds_once_and_resets c9Store "alice" 5 [100, 50] (by decide) rfl).1,
   (c9_flush_adds_once_and_resets c9Store "alice" 5 [100, 50] (by decide) rfl).2.1⟩

/-- No frame can close a session with reason `Expired` when every account
on record has an expiry that `expiryToISO` maps to `null`. -/
theorem authorize_no_expired_close (env : WsEnv) (u : String) (c : Nat)
    (H : ∀ row ∈ env.store.users,
      expiryToISO env.parse env.render row.expiration_date row.expiration_time = none) :
    Action.close c "Expired" ∉ authorizeActions env u := by
  cases hgu : getUser env.store u with
  | none =>
    rw [authorizeActions_unknown env u hgu]
    intro hmem
    rw [List.mem_singleton] at hmem
    exact absurd (Action.close.inj hmem).2 (by decide)
  | some row =>
    have hexp : expiryRejects env.parse env.render env.now row = false := by
      unfold expiryRejects
      rw [H row (List.mem_of_find?_eq_some hgu)]
    by_cases htr : trafficLimitRejects row = true
    · rw [authorizeActions_traffic env u row hgu hexp htr]
      intro hmem
      rw [List.mem_singleton] at hmem
      exact absurd (Action.close.inj hmem).2 (by decide)
    · have htr2 : trafficLimitRejects row = false := Bool.eq_false_iff.mpr htr
      by_cases hip : ipLimitRejects row (countDistinctIps env.store u) = true
      · rw [authorizeActions_ipLimit env u row hgu hexp htr2 hip]
        intro hmem
        rw [List.mem_singleton] at hmem
        exact absurd (Action.close.inj hmem).2 (by decide)
      · have hip2 : ipLimitRejects row (countDistinctIps env.store u) = false :=
          Bool.eq_false_iff.mpr hip
        rw [authorizeActions_pass env u row hgu hexp htr2 hip2]
        intro hmem
        rcases List.mem_cons.mp hmem with h | h
        · simp at h
        · unfold ackActions at h
          split at h <;> simp at h

/-- C10: `expiryToISO` yields `null` whenever `expiration_date` or
`expiration_time` is `null`, and whenever the combined string does not
parse to a valid timestamp; and a session over accounts whose expiry all
map to `null` is never closed with reason `Expired` — such accounts never
expire. -/
theorem c10_null_expiry_never_expires :
    (∀ parse render t, expiryToISO parse render none t = none) ∧
    (∀ parse render d, expiryToISO parse render d none = none) ∧
    (∀ parse render d t, parse (isoOf d t) = none →
      expiryToISO parse render (some d) (some t) = none) ∧
    (∀ env st chunk c,
      (∀ row ∈ env.store.users,
        expiryToISO env.parse env.render row.expiration_date row.expiration_time = none) →
      Action.close c "Expired" ∉ (handleMessage env st chunk).2) := by
  refine ⟨?_, ?_, ?_, ?_⟩
  · intro parse render t
    simp [expiryToISO, strTruthy]
  · intro parse render d
    simp [expiryToISO, strTruthy]
  · intro parse render d t hp
    unfold expiryToISO
    simp only [Option.getD_some, hp]
    split <;> rfl
  · intro env st chunk c H
    by_cases h0 : st.uuidStr = ""
    · cases hp : parseFirst env chunk with
      | error e =>
        cases e
        rw [handleMessage_first_error env st chunk h0 hp]
        intro hmem
        rw [List.mem_singleton] at hmem
        exact absurd (Action.close.inj hmem).2 (by decide)
      | ok p =>
        rw [handleMessage_first_ok env st chunk p h0 hp]
        exact authorize_no_expired_close env p.uuid c H
    · rw [handleMessage_later env st chunk h0]
      intro hmem
      unfold ackActions at hmem
      split at hmem <;> simp at hmem

/-- Environment whose only account has `null` expiry fields, for the C10
witness. -/
def c10Env : WsEnv := mkEnv ⟨[noLimitsRow], []⟩

/-- C10 witness: `null` date yields `null` ISO, and the `c10Env` session is
never closed with `Expired`. -/
theorem c10_null_expiry_witness :
    expiryToISO (fun _ => none) (fun _ => "") none (some "12:00") = none ∧
    Action.close 1008 "Expired" ∉ (handleMessage c10Env ⟨"", 0⟩ frame24).2 :=
  ⟨c10_null_expiry_never_expires.1 (fun _ => none) (fun _ => "") (some "12:00"),
   c10_null_expiry_never_expires.2.2.2 c10Env ⟨"", 0⟩ frame24 1008 (by decide)⟩

end Vless
